import Mathlib

/-!
# Verification of the `roblox-buffer` codec

Shallow embedding of `src/lib.rs` from the `roblox-buffer` crate: the
`Buffer` wrapper around a byte vector, its serde `Deserialize`
implementation (a tagged map with discriminant field `t = "buffer"` and a
flattened two-variant payload enum `base64` / `zbase64`), and its serde
`Serialize` implementation (a three-entry map `m`, `t`, `base64` with a
dead `if false` compression branch).

External library primitives are embedded as follows:

* `data_encoding::BASE64` (standard RFC 4648 base64, canonical padding) is
  implemented executably as `b64e` / `b64d` on lists of byte values.
* The zstd streaming decompressor is an external collaborator; decode is
  parameterised by a function `zd : List Nat → Except String (List Nat)`
  standing for `zstd::stream::Decoder::new` + `read_to_end` (an error of
  either stage is an error of `zd`).
* The serde document layer delivers a structured value `SValue`
  (JSON-like tree); map entries are listed in document order, which is
  the order serde's `MapAccess` visits them.

Bytes are modelled as `Nat`, with the `u8` range invariant `b < 256`
carried as a hypothesis where it matters.
-/

namespace RobloxBuffer

/-- Structured document value, as handed to the codec by the outer
serialization framework (serde): the JSON-like tree of the document
parser. -/
inductive SValue : Type
  | null : SValue
  | bool : Bool → SValue
  | num : Int → SValue
  | str : String → SValue
  | arr : List SValue → SValue
  | map : List (String × SValue) → SValue

/-- `Buffer` from `src/lib.rs`: `pub struct Buffer(Vec<u8>)`. Bytes are
`Nat`s; the `u8` invariant `< 256` is a hypothesis of the theorems. -/
structure Buffer : Type where
  data : List Nat
deriving DecidableEq

/-- `Buffer::new` — creates a buffer from bytes. -/
def Buffer.new (data : List Nat) : Buffer := ⟨data⟩

/-- `Buffer::into_vec` — returns the inner vector. -/
def Buffer.into_vec (b : Buffer) : List Nat := b.data

/-- Errors a decode can produce, by producing site in the source:
`structural` stands for errors raised by the document layer / the derived
`BufferInner` deserializer, the other three for the `Error::custom` calls
at lines 49, 55/59 and 61/65 of `src/lib.rs`. -/
inductive DecodeError : Type
  | structural : String → DecodeError
  | unexpectedTag : String → DecodeError
  | base64DecodeError : String → DecodeError
  | decompressionError : String → DecodeError
deriving DecidableEq

/-! ## Base64 (`data_encoding::BASE64`: RFC 4648, canonical, padded) -/

/-- The standard base64 symbol for a sextet value (`A`–`Z`, `a`–`z`,
`0`–`9`, `+`, `/`). -/
def sextet (n : Nat) : Char :=
  if n < 26 then Char.ofNat (65 + n)
  else if n < 52 then Char.ofNat (97 + (n - 26))
  else if n < 62 then Char.ofNat (48 + (n - 52))
  else if n = 62 then '+'
  else '/'

/-- Inverse symbol lookup of the standard base64 alphabet; `none` for any
character outside it (including `=`). -/
def base64Index (c : Char) : Option Nat :=
  if 65 ≤ c.toNat ∧ c.toNat ≤ 90 then some (c.toNat - 65)
  else if 97 ≤ c.toNat ∧ c.toNat ≤ 122 then some (c.toNat - 97 + 26)
  else if 48 ≤ c.toNat ∧ c.toNat ≤ 57 then some (c.toNat - 48 + 52)
  else if c.toNat = 43 then some 62
  else if c.toNat = 47 then some 63
  else none

/-- `BASE64.encode`: bytes to base64 characters, three bytes per block,
`=`-padded final block. -/
def b64e : List Nat → List Char
  | [] => []
  | [a] =>
      [sextet (a * 16 / 64), sextet (a * 16 % 64), '=', '=']
  | [a, b] =>
      [sextet ((a * 1024 + b * 4) / 4096), sextet ((a * 1024 + b * 4) / 64 % 64),
       sextet ((a * 1024 + b * 4) % 64), '=']
  | a :: b :: c :: rest =>
      sextet ((a * 65536 + b * 256 + c) / 262144) ::
      sextet ((a * 65536 + b * 256 + c) / 4096 % 64) ::
      sextet ((a * 65536 + b * 256 + c) / 64 % 64) ::
      sextet ((a * 65536 + b * 256 + c) % 64) :: b64e rest

/-- `BASE64.decode`: four characters per block, length must be a multiple
of four, `=` padding only at the end, canonical trailing bits required
(as `data_encoding::BASE64` checks). Errors carry the codec diagnostic. -/
def b64d : List Char → Except String (List Nat)
  | [] => .ok []
  | c1 :: c2 :: c3 :: c4 :: rest =>
    match base64Index c1, base64Index c2 with
    | some i1, some i2 =>
      if c3 = '=' then
        if c4 = '=' then
          match rest with
          | [] =>
            if i2 % 16 = 0 then .ok [i1 * 4 + i2 / 16]
            else .error "invalid symbol: non-zero trailing bits"
          | _ :: _ => .error "invalid symbol: padding before end of input"
        else .error "invalid symbol: expected padding"
      else
        match base64Index c3 with
        | some i3 =>
          if c4 = '=' then
            match rest with
            | [] =>
              if i3 % 4 = 0 then .ok [i1 * 4 + i2 / 16, i2 % 16 * 16 + i3 / 4]
              else .error "invalid symbol: non-zero trailing bits"
            | _ :: _ => .error "invalid symbol: padding before end of input"
          else
            match base64Index c4 with
            | some i4 =>
              match b64d rest with
              | .ok bs =>
                  .ok ((i1 * 4 + i2 / 16) :: (i2 % 16 * 16 + i3 / 4) ::
                        (i3 % 4 * 64 + i4) :: bs)
              | .error e => .error e
            | none => .error "invalid symbol"
        | none => .error "invalid symbol"
    | _, _ => .error "invalid symbol"
  | _ => .error "invalid length"

/-- `BASE64.encode` on a byte list, producing the base64 string. -/
def base64Encode (l : List Nat) : String := String.mk (b64e l)

/-- `BASE64.decode` applied to the characters of a string
(`BASE64.decode(s.as_bytes())`). -/
def base64Decode (s : String) : Except String (List Nat) := b64d s.toList

/-! ## The decode path (`impl Deserialize for Buffer`) -/

/-- The flattened payload enum `BufferData` of `src/lib.rs`
(`#[serde(rename = "base64")] Base64(String)` /
`#[serde(rename = "zbase64")] ZBase64(String)`). -/
inductive BufferData : Type
  | base64 : String → BufferData
  | zbase64 : String → BufferData
deriving DecidableEq

/-- The derived `BufferInner` field loop: walks the map entries in
document order, captures the `t` field (which must hold a string, must
not repeat), and collects every other entry — in order — for the
flattened `BufferData` field, as serde's flatten buffering does. -/
def scanFields : List (String × SValue) →
    Except DecodeError (Option String × List (String × SValue))
  | [] => .ok (none, [])
  | (k, v) :: fs =>
    if k = "t" then
      match v with
      | .str s =>
        match scanFields fs with
        | .ok (none, rest) => .ok (some s, rest)
        | .ok (some _, _) => .error (.structural "duplicate field t")
        | .error e => .error e
      | _ => .error (.structural "invalid type for field t")
    else
      match scanFields fs with
      | .ok (tv, rest) => .ok (tv, (k, v) :: rest)
      | .error e => .error e

/-- serde's `FlatMapDeserializer::deserialize_enum` for `BufferData`:
take the first collected entry whose key names a variant (`base64` or
`zbase64`), require its value to be a string, ignore every other entry;
if no entry matches, fail with the flatten error. -/
def parseData : List (String × SValue) → Except DecodeError BufferData
  | [] => .error (.structural "no variant of enum BufferData found in flattened data")
  | (k, v) :: fs =>
    if k = "base64" then
      match v with
      | .str s => .ok (.base64 s)
      | _ => .error (.structural "invalid type: expected a string")
    else if k = "zbase64" then
      match v with
      | .str s => .ok (.zbase64 s)
      | _ => .error (.structural "invalid type: expected a string")
    else parseData fs

/-- `<Buffer as Deserialize>::deserialize`, lines 26–72 of `src/lib.rs`,
parameterised by the zstd decompressor `zd` (an external collaborator).
Parses `BufferInner` (the `t` field, then the flattened payload — a
missing `t` or missing payload is a structural error of the derived
deserializer), then checks the tag, then decodes the chosen payload
arm. -/
def deserializeBuffer (zd : List Nat → Except String (List Nat)) (v : SValue) :
    Except DecodeError Buffer :=
  match v with
  | .map fields =>
    match scanFields fields with
    | .error e => .error e
    | .ok (none, _) => .error (.structural "missing field t")
    | .ok (some t, rest) =>
      match parseData rest with
      | .error e => .error e
      | .ok data =>
        if t = "buffer" then
          match data with
          | .base64 s =>
            match base64Decode s with
            | .ok bytes => .ok ⟨bytes⟩
            | .error e => .error (.base64DecodeError e)
          | .zbase64 s =>
            match base64Decode s with
            | .ok compressed =>
              match zd compressed with
              | .ok bytes => .ok ⟨bytes⟩
              | .error e => .error (.decompressionError e)
            | .error e => .error (.base64DecodeError e)
        else .error (.unexpectedTag "expected buffer")
  | _ => .error (.structural "invalid type: expected a map")

/-! ## The encode path (`impl Serialize for Buffer`) -/

/-- The structured value `<Buffer as Serialize>::serialize` emits: a map
of exactly three entries, in order `m ↦ null`, `t ↦ "buffer"`,
`base64 ↦ BASE64.encode(bytes)`. -/
def serializeBuffer (b : Buffer) : SValue :=
  .map [("m", .null), ("t", .str "buffer"),
        ("base64", .str (base64Encode b.data))]

/-- Lines 74–111 of `src/lib.rs` in full, including the `if false`
compression branch: `compress` stands for the zstd encoder chain
(`Encoder::new` / `set_pledged_src_size` / `include_contentsize` /
`write_all` / `finish`), whose `.unwrap()` panics are modelled as
`Except.error`. When the branch would be taken it emits a size-dependent
entry and then the unconditional `base64` entry after it. -/
def serializeBufferChecked (compress : List Nat → Except String (List Nat))
    (b : Buffer) : Except String SValue :=
  if (false : Bool) then
    match compress b.data with
    | .error e => .error e
    | .ok compressed =>
      if compressed.length < (base64Encode b.data).length then
        .ok (.map [("m", .null), ("t", .str "buffer"),
                   ("zbase64", .str (base64Encode compressed)),
                   ("base64", .str (base64Encode b.data))])
      else
        .ok (.map [("m", .null), ("t", .str "buffer"),
                   ("base64", .str (base64Encode b.data)),
                   ("base64", .str (base64Encode b.data))])
  else
    .ok (serializeBuffer b)

/-! ## Base64 round-trip -/

theorem base64Index_sextet : ∀ i, i < 64 → base64Index (sextet i) = some i := by
  decide

theorem sextet_ne_pad : ∀ i, i < 64 → sextet i ≠ '=' := by
  decide

theorem b64_roundtrip_aux : ∀ (n : Nat) (l : List Nat), l.length ≤ n →
    (∀ b ∈ l, b < 256) → b64d (b64e l) = Except.ok l := by
  intro n
  induction n with
  | zero =>
    intro l hl _
    rcases l with _ | ⟨a, t⟩
    · rfl
    · simp at hl
  | succ n ih =>
    intro l hl hb
    rcases l with _ | ⟨a, _ | ⟨b, _ | ⟨c, rest⟩⟩⟩
    · rfl
    · have ha : a < 256 := hb a (by simp)
      have e1 : base64Index (sextet (a * 16 / 64)) = some (a * 16 / 64) :=
        base64Index_sextet _ (by omega)
      have e2 : base64Index (sextet (a * 16 % 64)) = some (a * 16 % 64) :=
        base64Index_sextet _ (by omega)
      have h16 : a * 16 % 64 % 16 = 0 := by omega
      have hval : a * 16 / 64 * 4 + a * 16 % 64 / 16 = a := by omega
      simp only [b64e, b64d, e1, e2, h16, hval]
      simp
    · have ha : a < 256 := hb a (by simp)
      have hbb : b < 256 := hb b (by simp)
      have e1 : base64Index (sextet ((a * 1024 + b * 4) / 4096)) =
          some ((a * 1024 + b * 4) / 4096) := base64Index_sextet _ (by omega)
      have e2 : base64Index (sextet ((a * 1024 + b * 4) / 64 % 64)) =
          some ((a * 1024 + b * 4) / 64 % 64) := base64Index_sextet _ (by omega)
      have e3 : base64Index (sextet ((a * 1024 + b * 4) % 64)) =
          some ((a * 1024 + b * 4) % 64) := base64Index_sextet _ (by omega)
      have n3 : sextet ((a * 1024 + b * 4) % 64) ≠ '=' :=
        sextet_ne_pad _ (by omega)
      have h4 : (a * 1024 + b * 4) % 64 % 4 = 0 := by omega
      have hv1 : (a * 1024 + b * 4) / 4096 * 4 + (a * 1024 + b * 4) / 64 % 64 / 16 = a := by
        omega
      have hv2 : (a * 1024 + b * 4) / 64 % 64 % 16 * 16 + (a * 1024 + b * 4) % 64 / 4 = b := by
        omega
      simp only [b64e, b64d, e1, e2, e3, n3, h4, hv1, hv2]
      simp
    · have ha : a < 256 := hb a (by simp)
      have hbb : b < 256 := hb b (by simp)
      have hc : c < 256 := hb c (by simp)
      have hrest : b64d (b64e rest) = Except.ok rest := by
        refine ih rest ?_ (fun x hx => hb x (by simp [hx]))
        simp only [List.length_cons] at hl
        omega
      have e1 : base64Index (sextet ((a * 65536 + b * 256 + c) / 262144)) =
          some ((a * 65536 + b * 256 + c) / 262144) := base64Index_sextet _ (by omega)
      have e2 : base64Index (sextet ((a * 65536 + b * 256 + c) / 4096 % 64)) =
          some ((a * 65536 + b * 256 + c) / 4096 % 64) := base64Index_sextet _ (by omega)
      have e3 : base64Index (sextet ((a * 65536 + b * 256 + c) / 64 % 64)) =
          some ((a * 65536 + b * 256 + c) / 64 % 64) := base64Index_sextet _ (by omega)
      have e4 : base64Index (sextet ((a * 65536 + b * 256 + c) % 64)) =
          some ((a * 65536 + b * 256 + c) % 64) := base64Index_sextet _ (by omega)
      have n3 : sextet ((a * 65536 + b * 256 + c) / 64 % 64) ≠ '=' :=
        sextet_ne_pad _ (by omega)
      have n4 : sextet ((a * 65536 + b * 256 + c) % 64) ≠ '=' :=
        sextet_ne_pad _ (by omega)
      have hv1 : (a * 65536 + b * 256 + c) / 262144 * 4 +
          (a * 65536 + b * 256 + c) / 4096 % 64 / 16 = a := by omega
      have hv2 : (a * 65536 + b * 256 + c) / 4096 % 64 % 16 * 16 +
          (a * 65536 + b * 256 + c) / 64 % 64 / 4 = b := by omega
      have hv3 : (a * 65536 + b * 256 + c) / 64 % 64 % 4 * 64 +
          (a * 65536 + b * 256 + c) % 64 = c := by omega
      simp only [b64e, b64d, e1, e2, e3, e4, n3, n4, hrest, hv1, hv2, hv3]
      simp

theorem base64_roundtrip (l : List Nat) (h : ∀ b ∈ l, b < 256) :
    base64Decode (base64Encode l) = Except.ok l :=
  b64_roundtrip_aux l.length l (Nat.le_refl _) h

/-! ## Field-scanning lemmas -/

theorem scanFields_no_t (l : List (String × SValue)) (h : ∀ kv ∈ l, kv.1 ≠ "t") :
    scanFields l = .ok (none, l) := by
  induction l with
  | nil => rfl
  | cons kv fs ih =>
    obtain ⟨k, v⟩ := kv
    have hk : k ≠ "t" := h (k, v) (by simp)
    simp [scanFields, hk, ih (fun kv hkv => h kv (by simp [hkv]))]

theorem scanFields_split (l1 l2 : List (String × SValue)) (tv : String)
    (h1 : ∀ kv ∈ l1, kv.1 ≠ "t") (h2 : ∀ kv ∈ l2, kv.1 ≠ "t") :
    scanFields (l1 ++ ("t", SValue.str tv) :: l2) = .ok (some tv, l1 ++ l2) := by
  induction l1 with
  | nil => simp [scanFields, scanFields_no_t l2 h2]
  | cons kv fs ih =>
    obtain ⟨k, v⟩ := kv
    have hk : k ≠ "t" := h1 (k, v) (by simp)
    simp [scanFields, hk, ih (fun kv hkv => h1 kv (by simp [hkv]))]

theorem scanFields_rest_mem (l : List (String × SValue)) (tv : Option String)
    (rest : List (String × SValue)) (h : scanFields l = .ok (tv, rest)) :
    ∀ kv ∈ rest, kv ∈ l := by
  induction l generalizing tv rest with
  | nil =>
    simp only [scanFields, Except.ok.injEq, Prod.mk.injEq] at h
    obtain ⟨h1, h2⟩ := h
    subst h2
    simp
  | cons kv0 fs ih =>
    obtain ⟨k, v⟩ := kv0
    simp only [scanFields] at h
    by_cases hk : k = "t"
    · rw [if_pos hk] at h
      cases v with
      | str s =>
        cases hsf : scanFields fs with
        | error e2 => rw [hsf] at h; exact absurd h (by simp)
        | ok p =>
          obtain ⟨tv2, rest2⟩ := p
          rw [hsf] at h
          cases tv2 with
          | none =>
            simp only [Except.ok.injEq, Prod.mk.injEq] at h
            obtain ⟨h1, h2⟩ := h
            subst h2
            exact fun kv hkv => List.mem_cons_of_mem _ (ih none rest2 hsf kv hkv)
          | some s2 => exact absurd h (by simp)
      | null => exact absurd h (by simp)
      | bool b => exact absurd h (by simp)
      | num m => exact absurd h (by simp)
      | arr xs => exact absurd h (by simp)
      | map m => exact absurd h (by simp)
    · rw [if_neg hk] at h
      cases hsf : scanFields fs with
      | error e2 => rw [hsf] at h; exact absurd h (by simp)
      | ok p =>
        obtain ⟨tv2, rest2⟩ := p
        rw [hsf] at h
        simp only [Except.ok.injEq, Prod.mk.injEq] at h
        obtain ⟨h1, h2⟩ := h
        subst h2
        intro kv hkv
        rcases List.mem_cons.mp hkv with hh | hh
        · exact hh ▸ List.mem_cons_self _ _
        · exact List.mem_cons_of_mem _ (ih tv2 rest2 hsf kv hh)

theorem scanFields_error_structural (l : List (String × SValue)) (e : DecodeError)
    (h : scanFields l = .error e) : ∃ m, e = .structural m := by
  induction l generalizing e with
  | nil => exact absurd h (by simp [scanFields])
  | cons kv0 fs ih =>
    obtain ⟨k, v⟩ := kv0
    simp only [scanFields] at h
    by_cases hk : k = "t"
    · rw [if_pos hk] at h
      cases v with
      | str s =>
        cases hsf : scanFields fs with
        | error e2 =>
          rw [hsf] at h
          simp only [Except.error.injEq] at h
          subst h
          exact ih e2 hsf
        | ok p =>
          obtain ⟨tv2, rest2⟩ := p
          rw [hsf] at h
          cases tv2 with
          | none => exact absurd h (by simp)
          | some s2 =>
            simp only [Except.error.injEq] at h
            exact ⟨_, h.symm⟩
      | null => simp only [Except.error.injEq] at h; exact ⟨_, h.symm⟩
      | bool b => simp only [Except.error.injEq] at h; exact ⟨_, h.symm⟩
      | num m => simp only [Except.error.injEq] at h; exact ⟨_, h.symm⟩
      | arr xs => simp only [Except.error.injEq] at h; exact ⟨_, h.symm⟩
      | map m => simp only [Except.error.injEq] at h; exact ⟨_, h.symm⟩
    · rw [if_neg hk] at h
      cases hsf : scanFields fs with
      | error e2 =>
        rw [hsf] at h
        simp only [Except.error.injEq] at h
        subst h
        exact ih e2 hsf
      | ok p =>
        obtain ⟨tv2, rest2⟩ := p
        rw [hsf] at h
        exact absurd h (by simp)

theorem parseData_base64 (m1 m2 : List (String × SValue)) (s : String)
    (h : ∀ kv ∈ m1, kv.1 ≠ "base64" ∧ kv.1 ≠ "zbase64") :
    parseData (m1 ++ ("base64", SValue.str s) :: m2) = .ok (.base64 s) := by
  induction m1 with
  | nil => simp [parseData]
  | cons kv fs ih =>
    obtain ⟨k, v⟩ := kv
    have hk := h (k, v) (by simp)
    simp [parseData, hk.1, hk.2, ih (fun kv hkv => h kv (by simp [hkv]))]

theorem parseData_zbase64 (m1 m2 : List (String × SValue)) (s : String)
    (h : ∀ kv ∈ m1, kv.1 ≠ "base64" ∧ kv.1 ≠ "zbase64") :
    parseData (m1 ++ ("zbase64", SValue.str s) :: m2) = .ok (.zbase64 s) := by
  induction m1 with
  | nil => simp [parseData]
  | cons kv fs ih =>
    obtain ⟨k, v⟩ := kv
    have hk := h (k, v) (by simp)
    simp [parseData, hk.1, hk.2, ih (fun kv hkv => h kv (by simp [hkv]))]

theorem parseData_none (m : List (String × SValue))
    (h : ∀ kv ∈ m, kv.1 ≠ "base64" ∧ kv.1 ≠ "zbase64") :
    parseData m =
      .error (.structural "no variant of enum BufferData found in flattened data") := by
  induction m with
  | nil => rfl
  | cons kv fs ih =>
    obtain ⟨k, v⟩ := kv
    have hk := h (k, v) (by simp)
    simp [parseData, hk.1, hk.2, ih (fun kv hkv => h kv (by simp [hkv]))]

/-! ## Auxiliary values for concrete instantiations -/

/-- The keys of a structured map value, in emission order. -/
def SValue.keys : SValue → List String
  | .map fields => fields.map Prod.fst
  | _ => []

/-- A concrete stand-in decompressor for instantiating the abstract zstd
collaborator: maps the byte sequence `[1, 2, 3]` to the bytes of `"hi"`
and rejects everything else. -/
def zdTest : List Nat → Except String (List Nat) :=
  fun c => if c = [1, 2, 3] then .ok [104, 105] else .error "Unknown frame descriptor"

/-- Sanity: the encoder produces standard base64 (`"hi"` ↦ `"aGk="`,
matching §8 scenario 3 of the spec). -/
theorem base64Encode_hi : base64Encode [104, 105] = "aGk=" := rfl

/-! ## Claims -/

/-- **C1** — Round-trip: for every byte sequence `B` (the empty one
included), deserializing the structured value produced by serializing
`Buffer(B)` succeeds and yields `Buffer(B)`, for any zstd decompressor
(the `zbase64` arm is not taken). -/
theorem c1_round_trip (zd : List Nat → Except String (List Nat))
    (B : List Nat) (h : ∀ b ∈ B, b < 256) :
    deserializeBuffer zd (serializeBuffer ⟨B⟩) = Except.ok ⟨B⟩ := by
  have hr : base64Decode (base64Encode B) = Except.ok B := base64_roundtrip B h
  calc deserializeBuffer zd (serializeBuffer ⟨B⟩)
      = (match base64Decode (base64Encode B) with
         | .ok bytes => Except.ok (⟨bytes⟩ : Buffer)
         | .error e => Except.error (.base64DecodeError e)) := rfl
    _ = Except.ok ⟨B⟩ := by rw [hr]

/-- **C1** witness: the round-trip at the concrete buffers `[104, 105]`
(`"hi"`) and `[]` (empty). -/
theorem c1_round_trip_witness :
    deserializeBuffer zdTest (serializeBuffer ⟨[104, 105]⟩) = Except.ok ⟨[104, 105]⟩ ∧
    deserializeBuffer zdTest (serializeBuffer ⟨[]⟩) = Except.ok ⟨[]⟩ :=
  ⟨c1_round_trip zdTest [104, 105] (by decide),
   c1_round_trip zdTest [] (by decide)⟩

/-- **C2** counterexample: the mapping `{"m": null, "t": "notbuffer"}`
has a `t` field holding a string different from `"buffer"`, yet decode
fails with the structural flatten error (no payload field), not with the
`UnexpectedTag` error — the claim as stated quantifies over every such
mapping, payload present or not. -/
theorem c2_tag_enforcement_cex :
    deserializeBuffer zdTest (.map [("m", .null), ("t", .str "notbuffer")]) =
      Except.error (.structural "no variant of enum BufferData found in flattened data") ∧
    deserializeBuffer zdTest (.map [("m", .null), ("t", .str "notbuffer")]) ≠
      Except.error (.unexpectedTag "expected buffer") := by
  refine ⟨rfl, fun hcontra => ?_⟩
  have h2 : (Except.error (.structural "no variant of enum BufferData found in flattened data") :
      Except DecodeError Buffer) = Except.error (.unexpectedTag "expected buffer") := by
    calc (Except.error (.structural "no variant of enum BufferData found in flattened data") :
        Except DecodeError Buffer)
        = deserializeBuffer zdTest (.map [("m", .null), ("t", .str "notbuffer")]) := rfl
      _ = Except.error (.unexpectedTag "expected buffer") := hcontra
  simp at h2

/-- **C2** (amended) — Tag enforcement: for every input mapping that
parses into the tagged shape — a single `t` entry holding a string `tv`,
and among the remaining entries a first payload entry named `base64` or
`zbase64` holding a string — if `tv ≠ "buffer"` then decode fails with
the custom `UnexpectedTag` error carrying the fixed message
`"expected buffer"`, whatever the payload contains. -/
theorem c2_tag_enforcement (zd : List Nat → Except String (List Nat))
    (l1 l2 m1 m2 : List (String × SValue)) (tv pk s : String)
    (h1 : ∀ kv ∈ l1, kv.1 ≠ "t") (h2 : ∀ kv ∈ l2, kv.1 ≠ "t")
    (h3 : l1 ++ l2 = m1 ++ (pk, SValue.str s) :: m2)
    (h4 : ∀ kv ∈ m1, kv.1 ≠ "base64" ∧ kv.1 ≠ "zbase64")
    (h5 : pk = "base64" ∨ pk = "zbase64")
    (h6 : tv ≠ "buffer") :
    deserializeBuffer zd (.map (l1 ++ ("t", SValue.str tv) :: l2)) =
      Except.error (.unexpectedTag "expected buffer") := by
  have hscan := scanFields_split l1 l2 tv h1 h2
  have hd : ∃ d, parseData (l1 ++ l2) = .ok d := by
    rcases h5 with rfl | rfl
    · exact ⟨_, by rw [h3]; exact parseData_base64 m1 m2 s h4⟩
    · exact ⟨_, by rw [h3]; exact parseData_zbase64 m1 m2 s h4⟩
  obtain ⟨d, hd⟩ := hd
  simp only [deserializeBuffer, hscan, hd]
  rw [if_neg h6]

/-- **C2** witness: `{"m": null, "t": "notbuffer", "base64": "aGk="}`
(valid payload present) fails with `UnexpectedTag`. -/
theorem c2_tag_enforcement_witness :
    deserializeBuffer zdTest
        (.map [("m", .null), ("t", .str "notbuffer"), ("base64", .str "aGk=")]) =
      Except.error (.unexpectedTag "expected buffer") :=
  c2_tag_enforcement zdTest [("m", .null)] [("base64", .str "aGk=")] [("m", .null)] []
    "notbuffer" "base64" "aGk=" (by decide) (by decide) rfl (by decide) (Or.inl rfl)
    (by decide)

/-- **C3** — Encoder output shape: for every `Buffer` (and whatever the
dead compression branch's encoder would do), serialization succeeds and
produces a mapping with exactly three entries, in the order
`m ↦ null`, `t ↦ "buffer"`, `base64 ↦ BASE64.encode(bytes)`; its key
list is exactly `["m", "t", "base64"]`, so no `zbase64` field occurs. -/
theorem c3_encoder_shape (compress : List Nat → Except String (List Nat)) (b : Buffer) :
    serializeBufferChecked compress b =
      Except.ok (SValue.map [("m", SValue.null), ("t", SValue.str "buffer"),
                             ("base64", SValue.str (base64Encode b.data))]) ∧
    (serializeBuffer b).keys = ["m", "t", "base64"] ∧
    "zbase64" ∉ (serializeBuffer b).keys := by
  refine ⟨rfl, rfl, ?_⟩
  rw [show (serializeBuffer b).keys = ["m", "t", "base64"] from rfl]
  decide

/-- **C4** — Cross-variant decode equivalence: for every byte sequence
`B` and any compressed byte sequence `C` that decompresses to `B`,
decoding the `zbase64`
arm built from `C` and decoding the `base64` arm built from `B` yield
the same `Buffer` value, namely `Buffer(B)`. -/
theorem c4_cross_variant (zd : List Nat → Except String (List Nat))
    (B C : List Nat) (hB : ∀ b ∈ B, b < 256) (hC : ∀ b ∈ C, b < 256)
    (hz : zd C = .ok B) :
    deserializeBuffer zd (.map [("m", .null), ("t", .str "buffer"),
        ("zbase64", .str (base64Encode C))]) =
      deserializeBuffer zd (.map [("m", .null), ("t", .str "buffer"),
        ("base64", .str (base64Encode B))]) ∧
    deserializeBuffer zd (.map [("m", .null), ("t", .str "buffer"),
        ("base64", .str (base64Encode B))]) = Except.ok ⟨B⟩ := by
  have hrB : base64Decode (base64Encode B) = Except.ok B := base64_roundtrip B hB
  have hrC : base64Decode (base64Encode C) = Except.ok C := base64_roundtrip C hC
  have hb : deserializeBuffer zd (.map [("m", .null), ("t", .str "buffer"),
      ("base64", .str (base64Encode B))]) = Except.ok ⟨B⟩ := by
    calc deserializeBuffer zd (.map [("m", .null), ("t", .str "buffer"),
          ("base64", .str (base64Encode B))])
        = (match base64Decode (base64Encode B) with
           | .ok bytes => Except.ok (⟨bytes⟩ : Buffer)
           | .error e => Except.error (.base64DecodeError e)) := rfl
      _ = Except.ok ⟨B⟩ := by rw [hrB]
  have hzb : deserializeBuffer zd (.map [("m", .null), ("t", .str "buffer"),
      ("zbase64", .str (base64Encode C))]) = Except.ok ⟨B⟩ := by
    calc deserializeBuffer zd (.map [("m", .null), ("t", .str "buffer"),
          ("zbase64", .str (base64Encode C))])
        = (match base64Decode (base64Encode C) with
           | .ok compressed =>
             (match zd compressed with
              | .ok bytes => Except.ok (⟨bytes⟩ : Buffer)
              | .error e => Except.error (.decompressionError e))
           | .error e => Except.error (.base64DecodeError e)) := rfl
      _ = Except.ok ⟨B⟩ := by
          rw [hrC]
          show (match zd C with
                | Except.ok bytes => Except.ok (Buffer.mk bytes)
                | Except.error e => Except.error (DecodeError.decompressionError e)) =
              Except.ok ⟨B⟩
          rw [hz]
  exact ⟨hzb.trans hb.symm, hb⟩

/-- **C4** witness: with a stand-in decompressor sending `[1, 2, 3]` to
the bytes of `"hi"`, both arms decode to `Buffer([104, 105])`. -/
theorem c4_cross_variant_witness :
    deserializeBuffer zdTest (.map [("m", .null), ("t", .str "buffer"),
        ("zbase64", .str (base64Encode [1, 2, 3]))]) =
      deserializeBuffer zdTest (.map [("m", .null), ("t", .str "buffer"),
        ("base64", .str (base64Encode [104, 105]))]) ∧
    deserializeBuffer zdTest (.map [("m", .null), ("t", .str "buffer"),
        ("base64", .str (base64Encode [104, 105]))]) = Except.ok ⟨[104, 105]⟩ :=
  c4_cross_variant zdTest [104, 105] [1, 2, 3] (by decide) (by decide) rfl

/-- **C5** — Malformed base64 rejection: for every input mapping with
`t = "buffer"` whose selected payload arm is a `base64` field holding a
string that `BASE64.decode` rejects (diagnostic `e`), decode fails with
`Base64DecodeError` carrying `e`, and no `Buffer` value is produced. -/
theorem c5_malformed_base64 (zd : List Nat → Except String (List Nat))
    (l1 l2 m1 m2 : List (String × SValue)) (s e : String)
    (h1 : ∀ kv ∈ l1, kv.1 ≠ "t") (h2 : ∀ kv ∈ l2, kv.1 ≠ "t")
    (h3 : l1 ++ l2 = m1 ++ ("base64", SValue.str s) :: m2)
    (h4 : ∀ kv ∈ m1, kv.1 ≠ "base64" ∧ kv.1 ≠ "zbase64")
    (h5 : base64Decode s = .error e) :
    deserializeBuffer zd (.map (l1 ++ ("t", SValue.str "buffer") :: l2)) =
      Except.error (.base64DecodeError e) := by
  have hscan := scanFields_split l1 l2 "buffer" h1 h2
  have hd : parseData (l1 ++ l2) = .ok (.base64 s) := by
    rw [h3]; exact parseData_base64 m1 m2 s h4
  simp only [deserializeBuffer, hscan, hd]
  rw [if_true, h5]

/-- **C5** witness: `{"m": null, "t": "buffer", "base64": "!!!"}` fails
with `Base64DecodeError` (the string has an invalid length and invalid
symbols). -/
theorem c5_malformed_base64_witness :
    deserializeBuffer zdTest
        (.map [("m", .null), ("t", .str "buffer"), ("base64", .str "!!!")]) =
      Except.error (.base64DecodeError "invalid length") :=
  c5_malformed_base64 zdTest [("m", .null)] [("base64", .str "!!!")] [("m", .null)] []
    "!!!" "invalid length" (by decide) (by decide) rfl (by decide) rfl

/-- **C6** — Corrupt compressed payload rejection: for every input
mapping with `t = "buffer"` whose selected payload arm is a `zbase64`
field whose string base64-decodes to bytes `cs` that the zstd
decompressor rejects (diagnostic `e`), decode fails with
`DecompressionError` carrying `e`, and no partial buffer is returned. -/
theorem c6_corrupt_zstd (zd : List Nat → Except String (List Nat))
    (l1 l2 m1 m2 : List (String × SValue)) (s e : String) (cs : List Nat)
    (h1 : ∀ kv ∈ l1, kv.1 ≠ "t") (h2 : ∀ kv ∈ l2, kv.1 ≠ "t")
    (h3 : l1 ++ l2 = m1 ++ ("zbase64", SValue.str s) :: m2)
    (h4 : ∀ kv ∈ m1, kv.1 ≠ "base64" ∧ kv.1 ≠ "zbase64")
    (h5 : base64Decode s = .ok cs)
    (h6 : zd cs = .error e) :
    deserializeBuffer zd (.map (l1 ++ ("t", SValue.str "buffer") :: l2)) =
      Except.error (.decompressionError e) := by
  have hscan := scanFields_split l1 l2 "buffer" h1 h2
  have hd : parseData (l1 ++ l2) = .ok (.zbase64 s) := by
    rw [h3]; exact parseData_zbase64 m1 m2 s h4
  simp only [deserializeBuffer, hscan, hd]
  rw [if_true, h5]
  show (match zd cs with
        | Except.ok bytes => Except.ok (Buffer.mk bytes)
        | Except.error e => Except.error (DecodeError.decompressionError e)) =
      Except.error (.decompressionError e)
  rw [h6]

/-- **C6** witness: `{"m": null, "t": "buffer", "zbase64": "BAU="}`
base64-decodes to `[4, 5]`, which the stand-in decompressor rejects, so
decode fails with `DecompressionError` carrying its diagnostic. -/
theorem c6_corrupt_zstd_witness :
    deserializeBuffer zdTest
        (.map [("m", .null), ("t", .str "buffer"), ("zbase64", .str "BAU=")]) =
      Except.error (.decompressionError "Unknown frame descriptor") :=
  c6_corrupt_zstd zdTest [("m", .null)] [("zbase64", .str "BAU=")] [("m", .null)] []
    "BAU=" "Unknown frame descriptor" [4, 5] (by decide) (by decide) rfl (by decide)
    rfl rfl

/-- **C7** — Missing payload field: for every input mapping that
contains neither a `base64` nor a `zbase64` entry, decode fails with a
structural error of the document-parsing layer (one of the derived
deserializer's messages), never with one of the codec's custom
errors. -/
theorem c7_missing_payload (zd : List Nat → Except String (List Nat))
    (fields : List (String × SValue))
    (h : ∀ kv ∈ fields, kv.1 ≠ "base64" ∧ kv.1 ≠ "zbase64") :
    ∃ msg, deserializeBuffer zd (.map fields) = Except.error (.structural msg) := by
  cases hscan : scanFields fields with
  | error e =>
    obtain ⟨m, rfl⟩ := scanFields_error_structural fields e hscan
    exact ⟨m, by simp [deserializeBuffer, hscan]⟩
  | ok p =>
    obtain ⟨tv, rest⟩ := p
    cases tv with
    | none => exact ⟨"missing field t", by simp [deserializeBuffer, hscan]⟩
    | some t =>
      have hrest : ∀ kv ∈ rest, kv.1 ≠ "base64" ∧ kv.1 ≠ "zbase64" :=
        fun kv hkv => h kv (scanFields_rest_mem fields (some t) rest hscan kv hkv)
      exact ⟨"no variant of enum BufferData found in flattened data",
        by simp [deserializeBuffer, hscan, parseData_none rest hrest]⟩

/-- **C7** witness: `{"m": null, "t": "buffer"}` (no payload field,
§8 scenario 5) fails with a structural error. -/
theorem c7_missing_payload_witness :
    ∃ msg, deserializeBuffer zdTest (.map [("m", .null), ("t", .str "buffer")]) =
      Except.error (.structural msg) :=
  c7_missing_payload zdTest [("m", .null), ("t", .str "buffer")] (by decide)

/-- **C8** — Encode contributes no failure modes: for every `Buffer` and
every behaviour of the zstd encoder chain (`compress`, whose errors
stand for the `.unwrap()` panics in the disabled compress-and-compare
branch), serialization returns `Ok` with the plain three-entry mapping:
the branch under `if false` is unreachable, so its unwraps can never
fire and the codec itself never fails. -/
theorem c8_encode_total (compress : List Nat → Except String (List Nat)) (b : Buffer) :
    serializeBufferChecked compress b = Except.ok (serializeBuffer b) := rfl

/-- **C9** — Concrete decode scenario: the mapping
`{"m": null, "t": "buffer", "base64": "aGVsbG8gd29ybGQ="}` decodes to
the buffer holding exactly the ASCII bytes of `"hello world"`, for any
zstd decompressor. -/
theorem c9_hello_world (zd : List Nat → Except String (List Nat)) :
    deserializeBuffer zd (.map [("m", .null), ("t", .str "buffer"),
        ("base64", .str "aGVsbG8gd29ybGQ=")]) =
      Except.ok ⟨[104, 101, 108, 108, 111, 32, 119, 111, 114, 108, 100]⟩ := rfl

/-- **C10** — Decode tolerates extra fields and does not require `m`:
for every input mapping containing a `t ↦ "buffer"` entry and, among the
other entries, a first payload entry (`base64` or `zbase64`) that
decodes successfully, decode succeeds with that payload's bytes — no
matter what other entries (an `m` entry, unknown keys) surround them, in
any position; no `m` entry is required or inspected. -/
theorem c10_extra_fields (zd : List Nat → Except String (List Nat))
    (l1 l2 m1 m2 : List (String × SValue)) (pk s : String) (bs : List Nat)
    (h1 : ∀ kv ∈ l1, kv.1 ≠ "t") (h2 : ∀ kv ∈ l2, kv.1 ≠ "t")
    (h3 : l1 ++ l2 = m1 ++ (pk, SValue.str s) :: m2)
    (h4 : ∀ kv ∈ m1, kv.1 ≠ "base64" ∧ kv.1 ≠ "zbase64")
    (h5 : (pk = "base64" ∧ base64Decode s = .ok bs) ∨
          (pk = "zbase64" ∧ ∃ cs, base64Decode s = .ok cs ∧ zd cs = .ok bs)) :
    deserializeBuffer zd (.map (l1 ++ ("t", SValue.str "buffer") :: l2)) =
      Except.ok ⟨bs⟩ := by
  have hscan := scanFields_split l1 l2 "buffer" h1 h2
  rcases h5 with ⟨rfl, hdec⟩ | ⟨rfl, cs, hdec, hz⟩
  · have hd : parseData (l1 ++ l2) = .ok (.base64 s) := by
      rw [h3]; exact parseData_base64 m1 m2 s h4
    simp only [deserializeBuffer, hscan, hd]
    rw [if_true, hdec]
  · have hd : parseData (l1 ++ l2) = .ok (.zbase64 s) := by
      rw [h3]; exact parseData_zbase64 m1 m2 s h4
    simp only [deserializeBuffer, hscan, hd]
    rw [if_true, hdec]
    show (match zd cs with
          | Except.ok bytes => Except.ok (Buffer.mk bytes)
          | Except.error e => Except.error (DecodeError.decompressionError e)) =
        Except.ok ⟨bs⟩
    rw [hz]

/-- **C10** witness: a mapping with no `m` entry, unknown entries before
and after the tag, and a single valid `base64` payload decodes to the
bytes of `"hi"`. -/
theorem c10_extra_fields_witness :
    deserializeBuffer zdTest
        (.map [("junk", .num 7), ("t", .str "buffer"), ("extra", .bool true),
               ("base64", .str "aGk="), ("more", .arr [])]) =
      Except.ok ⟨[104, 105]⟩ :=
  c10_extra_fields zdTest [("junk", .num 7)]
    [("extra", .bool true), ("base64", .str "aGk="), ("more", .arr [])]
    [("junk", .num 7), ("extra", .bool true)] [("more", .arr [])] "base64" "aGk="
    [104, 105] (by decide) (by decide) rfl (by decide) (Or.inl ⟨rfl, rfl⟩)

end RobloxBuffer
